import Mathlib

/-!
Shallow embedding of `ArticlesService`
(`src/351001/Betenya/backend/src/api/v1.0/articles/articles.service.ts`).

The database visible to the service is modelled as a `Store`: lists of user
ids, article rows, sticker (tag) rows and article-sticker link rows, plus
autoincrement counters for the two generated primary keys.  Each service
method is a function from a `Store` (and its arguments) to a pair of an
`Except Err` result and the store visible after the call; a Prisma
`$transaction` whose body throws commits nothing, so on every error path the
returned store is the store the call started from.  NestJS exception classes
are modelled by `ErrKind`; Prisma-level errors that the service does not
catch are modelled by `ErrKind.dbError`.
-/

namespace Distcomp

/-- Sticker (tag) row: generated numeric id and a name. -/
structure Sticker where
  id : Nat
  name : String
deriving Repr, DecidableEq

/-- Article row: generated numeric id plus the scalar columns the service
writes (owning user id, title, content). -/
structure Article where
  id : Nat
  userId : Nat
  title : String
  content : String
deriving Repr, DecidableEq

/-- ArticleSticker join row linking one article to one sticker. -/
structure ArticleSticker where
  articleId : Nat
  stickerId : Nat
deriving Repr, DecidableEq

/-- The `ArticleRequestTo` DTO: owning user id, title, content and an
optional list of sticker names. -/
structure ArticleRequestTo where
  userId : Nat
  title : String
  content : String
  stickers : Option (List String)
deriving Repr, DecidableEq

/-- Database state visible to the service. -/
structure Store where
  users : List Nat
  articles : List Article
  stickers : List Sticker
  links : List ArticleSticker
  nextArticleId : Nat
  nextStickerId : Nat
deriving Repr, DecidableEq

/-- The exception classes thrown by the service: `UnauthorizedException`,
`ForbiddenException`, `NotFoundException`, `InternalServerErrorException`,
and uncaught persistence-layer errors (`dbError`). -/
inductive ErrKind where
  | unauthorized
  | forbidden
  | notFound
  | serverError
  | dbError
deriving Repr, DecidableEq

/-- A thrown error: its class and its message. -/
structure Err where
  kind : ErrKind
  msg : String
deriving Repr, DecidableEq

/-- Prisma `user.findUnique({ where: { id } })`, reduced to existence. -/
def findUser (s : Store) (uid : Nat) : Bool :=
  s.users.contains uid

/-- Prisma `article.findUnique({ where: { title } })`. -/
def findArticleByTitle (s : Store) (t : String) : Option Article :=
  s.articles.find? (fun a => a.title == t)

/-- Prisma `article.findUnique({ where: { id } })`. -/
def findArticleById (s : Store) (i : Nat) : Option Article :=
  s.articles.find? (fun a => a.id == i)

/-- Prisma `sticker.findFirst({ where: { name } })`. -/
def findStickerByName (s : Store) (n : String) : Option Sticker :=
  s.stickers.find? (fun st => st.name == n)

/-- Failure injection for the create transaction, modelling the simulated
mid-transaction persistence failures of spec property P5: each flag makes
the corresponding database call inside the transaction throw. -/
structure FailSpec where
  failTagResolve : Bool
  failArticleInsert : Bool
  failLinkInsert : Bool
deriving Repr, DecidableEq

/-- No injected failure: the normal behaviour of the persistence layer. -/
def noFail : FailSpec := ⟨false, false, false⟩

/-- The sticker-resolution loop of `createArticle` (lines 38-53): for each
name in order, `findFirst` by name in the transaction's current state; if
absent, create the sticker (visible to later iterations); push the resolved
record.  Returns the pushed records in order and the updated state. -/
def resolveStickers : List String → Store → List Sticker × Store
  | [], s => ([], s)
  | name :: rest, s =>
    match findStickerByName s name with
    | some found =>
      let pr := resolveStickers rest s
      (found :: pr.1, pr.2)
    | none =>
      let created : Sticker := ⟨s.nextStickerId, name⟩
      let s1 : Store := { s with stickers := s.stickers ++ [created],
                                 nextStickerId := s.nextStickerId + 1 }
      let pr := resolveStickers rest s1
      (created :: pr.1, pr.2)

/-- Body of the `$transaction` callback in `createArticle` (lines 36-69):
resolve stickers, insert the article row, and if any sticker records were
resolved, bulk-insert one link row per record via `createMany` (no
deduplication).  `fs` injects the simulated failures of P5. -/
def createTx (fs : FailSpec) (req : ArticleRequestTo) (s : Store) :
    Except Err (Article × Store) :=
  let names := req.stickers.getD []
  let pr := resolveStickers names s
  if fs.failTagResolve && !names.isEmpty then
    .error ⟨.dbError, "injected failure during sticker resolution"⟩
  else if fs.failArticleInsert then
    .error ⟨.dbError, "injected failure during article insert"⟩
  else
    let newArticle : Article := ⟨pr.2.nextArticleId, req.userId, req.title, req.content⟩
    let s2 : Store := { pr.2 with articles := pr.2.articles ++ [newArticle],
                                  nextArticleId := pr.2.nextArticleId + 1 }
    if pr.1.length > 0 then
      if fs.failLinkInsert then
        .error ⟨.dbError, "injected failure during link insert"⟩
      else
        .ok (newArticle,
             { s2 with links :=
                s2.links ++ pr.1.map (fun st => ArticleSticker.mk newArticle.id st.id) })
    else
      .ok (newArticle, s2)

/-- Method `createArticle` (lines 17-70): owner existence check, title uniqueness
check, then the transaction; a transaction error rolls back, leaving the
store as it was. -/
def createArticleGen (fs : FailSpec) (s : Store) (req : ArticleRequestTo) :
    Except Err Article × Store :=
  if !(findUser s req.userId) then
    (.error ⟨.unauthorized, "User with userId not found!"⟩, s)
  else if (findArticleByTitle s req.title).isSome then
    (.error ⟨.forbidden, "Article with title already exists!"⟩, s)
  else
    match createTx fs req s with
    | .error e => (.error e, s)
    | .ok (a, s1) => (.ok a, s1)

/-- Method `createArticle` with the persistence layer behaving normally. -/
def createArticle (s : Store) (req : ArticleRequestTo) :
    Except Err Article × Store :=
  createArticleGen noFail s req

/-- Method `getArticleById` (lines 76-86): throws `UnauthorizedException` when the
article is absent. -/
def getArticleById (s : Store) (i : Nat) : Except Err Article :=
  match findArticleById s i with
  | none => .error ⟨.unauthorized, "Article with id not found!"⟩
  | some a => .ok a

/-- Effect of `article.update({ where: { id }, data: article })` on one row:
the request DTO is passed wholesale as update data, so the scalar columns
userId, title and content are all overwritten (the `stickers` field of the
DTO is not a column of the Article model and is not applied). -/
def applyUpdate (req : ArticleRequestTo) (i : Nat) (a : Article) : Article :=
  if a.id == i then { a with userId := req.userId, title := req.title, content := req.content }
  else a

/-- Method `updateArticle` (lines 88-108): existence check throwing
`UnauthorizedException`, then the update; `dbFail = some m` models the
underlying persistence update rejecting with database error `m`, which the
service catches and replaces by `InternalServerErrorException`. -/
def updateArticleGen (dbFail : Option String) (s : Store) (i : Nat)
    (req : ArticleRequestTo) : Except Err Article × Store :=
  match findArticleById s i with
  | none => (.error ⟨.unauthorized, "Article with id not found!"⟩, s)
  | some _ =>
    match dbFail with
    | some _ => (.error ⟨.serverError, "Database error occurred"⟩, s)
    | none =>
      (.ok ⟨i, req.userId, req.title, req.content⟩,
       { s with articles := s.articles.map (applyUpdate req i) })

/-- Method `updateArticle` with the persistence layer behaving normally. -/
def updateArticle (s : Store) (i : Nat) (req : ArticleRequestTo) :
    Except Err Article × Store :=
  updateArticleGen none s i req

/-- The `articleSticker.count` call of `deleteArticle` (lines 134-139): the
number of link rows referencing sticker `sid` from an article other than
`aid`. -/
def otherConnections (aid sid : Nat) (links : List ArticleSticker) : Nat :=
  (links.filter (fun l => l.stickerId == sid && l.articleId != aid)).length

/-- The orphan-collection loop of `deleteArticle` (lines 133-146): for each
formerly linked sticker id in order, if no link row from another article
references it, delete the sticker row (Prisma `sticker.delete` throws when
the row is already gone, aborting the transaction). -/
def orphanSweep (aid : Nat) : List Nat → Store → Except Err Store
  | [], s => .ok s
  | sid :: rest, s =>
    if otherConnections aid sid s.links = 0 then
      if (s.stickers.find? (fun st => st.id == sid)).isSome then
        orphanSweep aid rest
          { s with stickers := s.stickers.filter (fun st => st.id != sid) }
      else
        .error ⟨.dbError, "Record to delete does not exist."⟩
    else
      orphanSweep aid rest s

/-- Body of the `$transaction` callback in `deleteArticle` (lines 119-149):
fetch the article's link rows, delete them, sweep formerly linked stickers
for orphans, then delete the article row. -/
def deleteTx (i : Nat) (s : Store) : Except Err Store :=
  let stickerIds := (s.links.filter (fun l => l.articleId == i)).map (fun l => l.stickerId)
  let s1 : Store := { s with links := s.links.filter (fun l => l.articleId != i) }
  match orphanSweep i stickerIds s1 with
  | .error e => .error e
  | .ok s2 =>
    if (findArticleById s2 i).isSome then
      .ok { s2 with articles := s2.articles.filter (fun a => a.id != i) }
    else
      .error ⟨.dbError, "Record to delete does not exist."⟩

/-- Method `deleteArticle` (lines 110-150): existence check throwing
`NotFoundException`, then the transaction; a transaction error rolls back. -/
def deleteArticle (s : Store) (i : Nat) : Except Err Unit × Store :=
  match findArticleById s i with
  | none => (.error ⟨.notFound, "Article not found"⟩, s)
  | some _ =>
    match deleteTx i s with
    | .error e => (.error e, s)
    | .ok s1 => (.ok (), s1)

/-- A store satisfies `noOrphans` when every sticker row is referenced by at
least one link row. -/
def noOrphans (s : Store) : Prop :=
  ∀ st ∈ s.stickers, ∃ l ∈ s.links, l.stickerId = st.id

/-- The article `aid` is linked to the sticker `sid` in store `s`. -/
def linkedTo (s : Store) (aid sid : Nat) : Bool :=
  s.links.any (fun l => l.articleId == aid && l.stickerId == sid)

/-- An empty database. -/
def emptyStore : Store := ⟨[], [], [], [], 1, 1⟩

/-- A database holding only the user with id 1. -/
def exUserStore : Store := ⟨[1], [], [], [], 1, 1⟩

/-- A create request by user 1 whose tag list repeats the name "a". -/
def exReqDup : ArticleRequestTo := ⟨1, "T", "Cont", some ["a", "a", "b"]⟩

/-- A create request by user 1 with no tags. -/
def exReqPlain : ArticleRequestTo := ⟨1, "T", "Cont", none⟩

/-- A database with articles X and Y, where X carries tags "only-x" and
"shared" and Y carries tag "shared" (the scenario of spec property P4). -/
def exStoreXY : Store :=
  ⟨[1], [⟨1, 1, "X", "cx"⟩, ⟨2, 1, "Y", "cy"⟩],
   [⟨1, "only-x"⟩, ⟨2, "shared"⟩],
   [⟨1, 1⟩, ⟨1, 2⟩, ⟨2, 2⟩], 3, 3⟩

/-- The database left after deleting article X from `exStoreXY`. -/
def exStoreXY1 : Store :=
  ⟨[1], [⟨2, 1, "Y", "cy"⟩], [⟨2, "shared"⟩], [⟨2, 2⟩], 3, 3⟩

/-- A database with users 1 and 2 and one article owned by user 1. -/
def exStoreU : Store := ⟨[1, 2], [⟨1, 1, "T", "Cont"⟩], [], [], 2, 1⟩

/-- A database with user 1 and one untagged article. -/
def exStoreOne : Store := ⟨[1], [⟨1, 1, "T", "Cont"⟩], [], [], 2, 1⟩

/-- The database left after updating article 1 of `exStoreU` with the
request carrying userId 2, title "T" and content "C2". -/
def exStoreU1 : Store := ⟨[1, 2], [⟨1, 2, "T", "C2"⟩], [], [], 2, 1⟩

/-- Claim C1: evaluating `createArticle` at the tag list ["a", "a", "b"]
shows the bug: exactly one sticker row is created per distinct name, but the
second occurrence of "a" pushes the same resolved record a second time and
`createMany` does not deduplicate, so the article ends up linked to sticker
"a" by two identical link rows, contradicting the claim that each distinct
tag is linked exactly once. -/
theorem createArticle_dup_tag_names_dup_link_rows :
    ((createArticle exUserStore exReqDup).2.stickers.map Sticker.name = ["a", "b"]) ∧
    (createArticle exUserStore exReqDup).2.links =
      [⟨1, 1⟩, ⟨1, 1⟩, ⟨1, 2⟩] := by decide

/-- Claim C3, counterexample: on an id with no article, `updateArticle`
throws `UnauthorizedException`, which is a different error class from the
`NotFoundException` class the claim announces. -/
theorem updateArticle_missing_error_class_cex :
    (updateArticle emptyStore 1 exReqPlain).1 =
      .error ⟨.unauthorized, "Article with id not found!"⟩ ∧
    ErrKind.unauthorized ≠ ErrKind.notFound := ⟨rfl, by decide⟩

/-- Claim C3, amended: for every id for which no article exists,
`updateArticle` fails with an Unauthorized-class error (message "Article
with id not found!") and writes nothing. -/
theorem updateArticle_missing_unauthorized (s : Store) (i : Nat)
    (req : ArticleRequestTo) (h : findArticleById s i = none) :
    updateArticle s i req =
      (.error ⟨.unauthorized, "Article with id not found!"⟩, s) := by
  simp [updateArticle, updateArticleGen, h]

/-- Witness for the amended claim C3 at a concrete input. -/
theorem updateArticle_missing_unauthorized_witness :
    findArticleById emptyStore 1 = none ∧
    updateArticle emptyStore 1 exReqPlain =
      (.error ⟨.unauthorized, "Article with id not found!"⟩, emptyStore) :=
  ⟨by decide, updateArticle_missing_unauthorized emptyStore 1 exReqPlain (by decide)⟩

/-- Claim C5: a create call whose owner id matches no existing user fails
with the Unauthorized-class error before any row is written: the returned
store is exactly the input store. -/
theorem createArticle_missing_owner_unauthorized (s : Store)
    (req : ArticleRequestTo) (h : findUser s req.userId = false) :
    createArticle s req =
      (.error ⟨.unauthorized, "User with userId not found!"⟩, s) := by
  simp [createArticle, createArticleGen, h]

/-- Witness for claim C5 at a concrete input. -/
theorem createArticle_missing_owner_unauthorized_witness :
    findUser emptyStore exReqPlain.userId = false ∧
    createArticle emptyStore exReqPlain =
      (.error ⟨.unauthorized, "User with userId not found!"⟩, emptyStore) :=
  ⟨by decide, createArticle_missing_owner_unauthorized emptyStore exReqPlain (by decide)⟩

/-- Claim C9: when the underlying persistence update rejects during
`updateArticle` on an existing article, the call fails with the
InternalServerError class and the constant message "Database error
occurred", whatever the database error was (the result does not depend on
`dbMsg`, so the specific database error is not leaked), and this class is
distinct both from `NotFoundException` and from the Unauthorized class the
service itself uses for a missing article. -/
theorem updateArticle_dbfail_serverError (s : Store) (i : Nat)
    (req : ArticleRequestTo) (a : Article) (dbMsg : String)
    (h : findArticleById s i = some a) :
    updateArticleGen (some dbMsg) s i req =
      (.error ⟨.serverError, "Database error occurred"⟩, s) ∧
    ErrKind.serverError ≠ ErrKind.notFound ∧
    ErrKind.serverError ≠ ErrKind.unauthorized := by
  refine ⟨?_, by decide, by decide⟩
  simp [updateArticleGen, h]

/-- Witness for claim C9 at a concrete input. -/
theorem updateArticle_dbfail_serverError_witness :
    findArticleById exStoreOne 1 = some ⟨1, 1, "T", "Cont"⟩ ∧
    (updateArticleGen (some "connection reset") exStoreOne 1 exReqPlain =
      (.error ⟨.serverError, "Database error occurred"⟩, exStoreOne) ∧
    ErrKind.serverError ≠ ErrKind.notFound ∧
    ErrKind.serverError ≠ ErrKind.unauthorized) :=
  ⟨by decide,
   updateArticle_dbfail_serverError exStoreOne 1 exReqPlain ⟨1, 1, "T", "Cont"⟩
     "connection reset" (by decide)⟩

/-- Claim C2, counterexample: updating article 1 (owned by user 1) with a
request carrying userId 2 reassigns ownership, because the whole request
DTO is passed as update data; the claim that the owning userId is unchanged
by the update is false. -/
theorem updateArticle_changes_userId_cex :
    exStoreU.articles.map Article.userId = [1] ∧
    (updateArticle exStoreU 1 ⟨2, "T", "C2", none⟩).2.articles.map Article.userId = [2] := by
  decide

/-- Claim C7, counterexample: after a successful delete, fetching the
article by id fails with `UnauthorizedException`, which is a different
error class from the `NotFoundException` class the claim announces. -/
theorem deleteArticle_fetch_error_class_cex :
    (deleteArticle exStoreOne 1).1 = .ok () ∧
    getArticleById (deleteArticle exStoreOne 1).2 1 =
      .error ⟨.unauthorized, "Article with id not found!"⟩ ∧
    ErrKind.unauthorized ≠ ErrKind.notFound := ⟨rfl, rfl, by decide⟩

/-- Claim C8: every error outcome of `createArticle` — pre-check failures
as well as any injected failure inside the transaction (sticker resolution,
article insert, or link insert after the article row was inserted) — leaves
the store exactly as it was before the call. -/
theorem createArticleGen_error_rollback (fs : FailSpec) (s : Store)
    (req : ArticleRequestTo) (e : Err)
    (h : (createArticleGen fs s req).1 = .error e) :
    (createArticleGen fs s req).2 = s := by
  unfold createArticleGen at h ⊢
  by_cases h1 : (!(findUser s req.userId)) = true
  · simp [h1]
  · by_cases h2 : (findArticleByTitle s req.title).isSome
    · simp [h1, h2]
    · cases hc : createTx fs req s with
      | error e2 => simp [h1, h2, hc]
      | ok p =>
        exfalso
        cases p with
        | mk a s1 => simp [h1, h2, hc] at h

/-- Witness for claim C8: a link-insert failure injected after the article
insert makes the call fail and leaves the concrete store untouched. -/
theorem createArticleGen_error_rollback_witness :
    (createArticleGen ⟨false, false, true⟩ exUserStore exReqDup).1 =
      .error ⟨.dbError, "injected failure during link insert"⟩ ∧
    (createArticleGen ⟨false, false, true⟩ exUserStore exReqDup).2 = exUserStore :=
  ⟨rfl,
   createArticleGen_error_rollback ⟨false, false, true⟩ exUserStore exReqDup
     ⟨.dbError, "injected failure during link insert"⟩ rfl⟩

/-- The sticker-resolution loop touches only the sticker table and the
sticker id counter: links, articles and users pass through unchanged. -/
theorem resolveStickers_frame (ns : List String) (s : Store) :
    (resolveStickers ns s).2.links = s.links ∧
    (resolveStickers ns s).2.articles = s.articles ∧
    (resolveStickers ns s).2.users = s.users := by
  induction ns generalizing s with
  | nil => exact ⟨rfl, rfl, rfl⟩
  | cons name rest ih =>
    simp only [resolveStickers]
    cases hf : findStickerByName s name with
    | some found => simpa using ih s
    | none => simpa using ih _

/-- Every sticker in the state left by the resolution loop is either an
original sticker or one of the resolved records returned by the loop. -/
theorem resolveStickers_stickers_mem (ns : List String) (s : Store) :
    ∀ st ∈ (resolveStickers ns s).2.stickers,
      st ∈ s.stickers ∨ st ∈ (resolveStickers ns s).1 := by
  induction ns generalizing s with
  | nil => exact fun st hst => .inl hst
  | cons name rest ih =>
    intro st hst
    cases hf : findStickerByName s name with
    | some found =>
      simp only [resolveStickers, hf] at hst ⊢
      rcases ih s st hst with hl | hr
      · exact .inl hl
      · exact .inr (List.mem_cons_of_mem _ hr)
    | none =>
      simp only [resolveStickers, hf] at hst ⊢
      rcases ih _ st hst with hl | hr
      · rcases List.mem_append.1 hl with h1 | h2
        · exact .inl h1
        · simp at h2
          exact .inr (by simp [h2])
      · exact .inr (List.mem_cons_of_mem _ hr)

/-- Shape of a successful `createArticle`: the new article row carries the
request's fields and the next article id, it is appended to the article
table left by sticker resolution, and one link row per resolved sticker
record is appended to the link table. -/
theorem createArticle_ok_shape (s : Store) (req : ArticleRequestTo)
    (a : Article) (s1 : Store) (h : createArticle s req = (.ok a, s1)) :
    a = ⟨(resolveStickers (req.stickers.getD []) s).2.nextArticleId,
         req.userId, req.title, req.content⟩ ∧
    s1.articles = (resolveStickers (req.stickers.getD []) s).2.articles ++ [a] ∧
    s1.stickers = (resolveStickers (req.stickers.getD []) s).2.stickers ∧
    s1.links = (resolveStickers (req.stickers.getD []) s).2.links ++
      (resolveStickers (req.stickers.getD []) s).1.map
        (fun st => ArticleSticker.mk a.id st.id) := by
  unfold createArticle createArticleGen at h
  split at h
  · simp at h
  · split at h
    · simp at h
    · unfold createTx noFail at h
      simp only [Bool.false_and, Bool.if_false_left, Bool.not_true,
        Bool.false_eq_true, if_false] at h
      by_cases hlen : (resolveStickers (req.stickers.getD []) s).1.length > 0
      · rw [if_pos hlen] at h
        simp only at h
        have h1 := congrArg Prod.fst h
        have h2 := congrArg Prod.snd h
        simp only at h1 h2
        cases h1
        subst h2
        refine ⟨rfl, rfl, rfl, rfl⟩
      · rw [if_neg hlen] at h
        have hnil : (resolveStickers (req.stickers.getD []) s).1 = [] :=
          List.eq_nil_of_length_eq_zero (Nat.eq_zero_of_not_pos hlen)
        simp only at h
        have h1 := congrArg Prod.fst h
        have h2 := congrArg Prod.snd h
        simp only at h1 h2
        cases h1
        subst h2
        refine ⟨rfl, rfl, rfl, by simp [hnil]⟩

/-- Claim C4: if a create call succeeded, a second create call with the
same title (by an existing user, so that the owner check passes) fails with
the error the service throws for a duplicate title — the Forbidden-class
"Article with title already exists!" error, which realises the spec's
Conflict kind — and returns the store unchanged: no article, sticker or
link row is written. -/
theorem createArticle_title_conflict (s : Store) (req1 req2 : ArticleRequestTo)
    (a : Article) (s1 : Store)
    (h1 : createArticle s req1 = (.ok a, s1))
    (huser : findUser s1 req2.userId = true)
    (ht : req2.title = req1.title) :
    createArticle s1 req2 =
      (.error ⟨.forbidden, "Article with title already exists!"⟩, s1) := by
  obtain ⟨ha, harts, _, _⟩ := createArticle_ok_shape s req1 a s1 h1
  have hmem : a ∈ s1.articles := by
    rw [harts]; exact List.mem_append_right _ (by simp)
  have htitle : a.title = req1.title := by rw [ha]
  have hsome : (findArticleByTitle s1 req2.title).isSome := by
    unfold findArticleByTitle
    rw [List.find?_isSome]
    exact ⟨a, hmem, by simp [ht, htitle]⟩
  simp [createArticle, createArticleGen, huser, hsome]

/-- Witness for claim C4 at a concrete input: a second create call reusing
the title "T" is rejected and writes nothing. -/
theorem createArticle_title_conflict_witness :
    createArticle exUserStore exReqPlain =
      (.ok ⟨1, 1, "T", "Cont"⟩, exStoreOne) ∧
    findUser exStoreOne (ArticleRequestTo.mk 1 "T" "C2" none).userId = true ∧
    (ArticleRequestTo.mk 1 "T" "C2" none).title = exReqPlain.title ∧
    createArticle exStoreOne ⟨1, "T", "C2", none⟩ =
      (.error ⟨.forbidden, "Article with title already exists!"⟩, exStoreOne) :=
  ⟨rfl, by decide, by decide,
   createArticle_title_conflict exUserStore exReqPlain ⟨1, "T", "C2", none⟩
     ⟨1, 1, "T", "Cont"⟩ exStoreOne rfl (by decide) (by decide)⟩

/-- Claim C2, amended: `updateArticle` overwrites the article's userId,
title and content from the request (ownership is reassignable, because the
whole request DTO is passed as update data); other articles and the
sticker, link and user tables are untouched. -/
theorem updateArticle_writes_request_fields (s : Store) (i : Nat)
    (req : ArticleRequestTo) (a : Article) (s1 : Store)
    (h : updateArticle s i req = (.ok a, s1)) :
    s1.users = s.users ∧ s1.stickers = s.stickers ∧ s1.links = s.links ∧
    (∀ b ∈ s1.articles, b.id = i →
        b.userId = req.userId ∧ b.title = req.title ∧ b.content = req.content) ∧
    (∀ b ∈ s1.articles, b.id ≠ i → b ∈ s.articles) := by
  unfold updateArticle updateArticleGen at h
  cases hf : findArticleById s i with
  | none => rw [hf] at h; simp at h
  | some a0 =>
    rw [hf] at h
    simp only at h
    have h2 := congrArg Prod.snd h
    simp only at h2
    subst h2
    refine ⟨rfl, rfl, rfl, ?_, ?_⟩
    · intro b hb hbi
      obtain ⟨c, hc, hcb⟩ := List.mem_map.1 hb
      by_cases hci : (c.id == i) = true
      · rw [← hcb]
        simp [applyUpdate, hci]
      · rw [← hcb] at hbi
        simp [applyUpdate, hci] at hbi
        simp at hci
        exact absurd hbi hci
    · intro b hb hbi
      obtain ⟨c, hc, hcb⟩ := List.mem_map.1 hb
      by_cases hci : (c.id == i) = true
      · rw [← hcb] at hbi
        simp [applyUpdate, hci] at hbi
        simp at hci
        exact absurd hci hbi
      · rw [← hcb]
        simp [applyUpdate, hci]
        exact hc

/-- Witness for the amended claim C2 at a concrete input: the update
rewrites userId, title and content of article 1 and touches nothing else. -/
theorem updateArticle_writes_request_fields_witness :
    exStoreU1.users = exStoreU.users ∧
    exStoreU1.stickers = exStoreU.stickers ∧ exStoreU1.links = exStoreU.links ∧
    (∀ b ∈ exStoreU1.articles, b.id = 1 →
        b.userId = 2 ∧ b.title = "T" ∧ b.content = "C2") ∧
    (∀ b ∈ exStoreU1.articles, b.id ≠ 1 → b ∈ exStoreU.articles) :=
  updateArticle_writes_request_fields exStoreU 1 ⟨2, "T", "C2", none⟩
    ⟨1, 2, "T", "C2"⟩ exStoreU1 rfl

/-- The orphan-collection loop touches only the sticker table: links,
articles and users pass through unchanged. -/
theorem orphanSweep_ok_frame (aid : Nat) (ids : List Nat) (s s1 : Store)
    (h : orphanSweep aid ids s = .ok s1) :
    s1.links = s.links ∧ s1.articles = s.articles ∧ s1.users = s.users := by
  induction ids generalizing s with
  | nil =>
    simp only [orphanSweep, Except.ok.injEq] at h
    subst h; exact ⟨rfl, rfl, rfl⟩
  | cons sid rest ih =>
    unfold orphanSweep at h
    split at h
    · split at h
      · have hres := ih _ h
        exact hres
      · simp at h
    · exact ih _ h

/-- The orphan-collection loop never adds stickers: every sticker of the
final state was already present. -/
theorem orphanSweep_ok_stickers_sub (aid : Nat) (ids : List Nat) (s s1 : Store)
    (h : orphanSweep aid ids s = .ok s1) :
    ∀ st ∈ s1.stickers, st ∈ s.stickers := by
  induction ids generalizing s with
  | nil =>
    simp only [orphanSweep, Except.ok.injEq] at h
    subst h; exact fun st hst => hst
  | cons sid rest ih =>
    unfold orphanSweep at h
    split at h
    · split at h
      · intro st hst
        exact List.mem_of_mem_filter (ih _ h st hst)
      · simp at h
    · exact ih _ h

/-- A sticker that still has a link row from another article survives the
orphan-collection loop. -/
theorem orphanSweep_keep (aid : Nat) (ids : List Nat) (s s1 : Store)
    (st : Sticker) (h : orphanSweep aid ids s = .ok s1) (hmem : st ∈ s.stickers)
    (hoc : otherConnections aid st.id s.links ≠ 0) :
    st ∈ s1.stickers := by
  induction ids generalizing s with
  | nil =>
    simp only [orphanSweep, Except.ok.injEq] at h
    subst h; exact hmem
  | cons sid rest ih =>
    unfold orphanSweep at h
    split at h
    next hzero =>
      split at h
      next hfind =>
        refine ih _ h ?_ hoc
        have hne : st.id ≠ sid := by
          intro he; rw [he] at hoc; exact hoc hzero
        exact List.mem_filter.2 ⟨hmem, by simpa using hne⟩
      next => simp at h
    next => exact ih _ h hmem hoc

/-- A formerly linked sticker with no remaining link row from another
article does not survive a successful orphan-collection loop: no sticker of
the final state carries its id. -/
theorem orphanSweep_remove (aid : Nat) (ids : List Nat) (s s1 : Store)
    (sid : Nat) (h : orphanSweep aid ids s = .ok s1) (hin : sid ∈ ids)
    (hoc : otherConnections aid sid s.links = 0) :
    ∀ st ∈ s1.stickers, st.id ≠ sid := by
  induction ids generalizing s with
  | nil => simp at hin
  | cons sid0 rest ih =>
    unfold orphanSweep at h
    rcases List.mem_cons.1 hin with heq | htail
    · subst heq
      rw [if_pos hoc] at h
      split at h
      next hfind =>
        intro st hst
        have hsub := orphanSweep_ok_stickers_sub _ _ _ _ h st hst
        have hmf := List.mem_filter.1 hsub
        simpa using hmf.2
      next => simp at h
    · split at h
      · split at h
        · exact ih _ h htail hoc
        · simp at h
      · exact ih _ h htail hoc

/-- Filtering out the deleted article's own link rows first does not change
the remaining-connections count, because that count already excludes the
article being deleted. -/
theorem otherConnections_filter (aid sid : Nat) (links : List ArticleSticker) :
    otherConnections aid sid (links.filter (fun l => l.articleId != aid)) =
      otherConnections aid sid links := by
  unfold otherConnections
  rw [List.filter_filter]
  congr 1
  apply List.filter_congr
  intro l _
  cases hb : (l.articleId != aid) <;> simp [hb]

/-- A sticker linked to article `i` appears in the list of sticker ids the
delete transaction collects before removing the links. -/
theorem linkedTo_mem_stickerIds (s : Store) (i sid : Nat)
    (h : linkedTo s i sid = true) :
    sid ∈ (s.links.filter (fun l => l.articleId == i)).map
      (fun l => l.stickerId) := by
  unfold linkedTo at h
  obtain ⟨l, hl, hp⟩ := List.any_eq_true.1 h
  simp at hp
  exact List.mem_map.2 ⟨l, List.mem_filter.2 ⟨hl, by simp [hp.1]⟩, hp.2⟩

/-- Shape of a successful `deleteArticle`: the transaction first removes
the article's link rows, then runs the orphan sweep over the formerly
linked sticker ids, then removes the article row. -/
theorem deleteArticle_ok_shape (s : Store) (i : Nat) (s1 : Store)
    (h : deleteArticle s i = (.ok (), s1)) :
    ∃ s2, orphanSweep i
        ((s.links.filter (fun l => l.articleId == i)).map (fun l => l.stickerId))
        { s with links := s.links.filter (fun l => l.articleId != i) } = .ok s2 ∧
      s1 = { s2 with articles := s2.articles.filter (fun a => a.id != i) } := by
  unfold deleteArticle at h
  cases hf : findArticleById s i with
  | none => rw [hf] at h; simp at h
  | some a0 =>
    rw [hf] at h
    unfold deleteTx at h
    simp only at h
    cases hos : orphanSweep i
        ((s.links.filter (fun l => l.articleId == i)).map (fun l => l.stickerId))
        { s with links := s.links.filter (fun l => l.articleId != i) } with
    | error e => rw [hos] at h; simp at h
    | ok s2 =>
      rw [hos] at h
      simp only at h
      by_cases hfind2 : (findArticleById s2 i).isSome
      · rw [if_pos hfind2] at h
        simp only at h
        have h2 := congrArg Prod.snd h
        simp only at h2
        exact ⟨s2, rfl, h2.symm⟩
      · rw [if_neg hfind2] at h
        simp at h

/-- Claim C6: for a successful delete of article `i`, every sticker that
was linked to `i` and has no remaining link row from another article is
gone from the sticker table, every sticker that was linked to `i` but still
has a link row from another article survives, and every link row of
another article survives. -/
theorem deleteArticle_orphan_cleanup (s : Store) (i : Nat) (s1 : Store)
    (h : deleteArticle s i = (.ok (), s1)) :
    (∀ st ∈ s.stickers, linkedTo s i st.id = true →
       (otherConnections i st.id s.links = 0 →
          ∀ st2 ∈ s1.stickers, st2.id ≠ st.id) ∧
       (otherConnections i st.id s.links ≠ 0 → st ∈ s1.stickers)) ∧
    (∀ l ∈ s.links, l.articleId ≠ i → l ∈ s1.links) := by
  obtain ⟨s2, hos, rfl⟩ := deleteArticle_ok_shape s i s1 h
  have hframe := orphanSweep_ok_frame _ _ _ _ hos
  have hlinks2 : s2.links = s.links.filter (fun l2 => l2.articleId != i) :=
    hframe.1
  constructor
  · intro st hst hlink
    constructor
    · intro hoc st2 hst2
      refine orphanSweep_remove _ _ _ s2 st.id hos
        (linkedTo_mem_stickerIds s i st.id hlink) ?_ st2 hst2
      show otherConnections i st.id
        (s.links.filter (fun l => l.articleId != i)) = 0
      rw [otherConnections_filter]
      exact hoc
    · intro hoc
      refine orphanSweep_keep _ _ _ s2 st hos hst ?_
      show otherConnections i st.id
        (s.links.filter (fun l => l.articleId != i)) ≠ 0
      rw [otherConnections_filter]
      exact hoc
  · intro l hl hne
    show l ∈ s2.links
    rw [hlinks2]
    exact List.mem_filter.2 ⟨hl, by simpa using hne⟩

/-- Witness for claim C6 at the concrete P4 scenario: deleting article X
removes the orphaned tag "only-x" and keeps the shared tag "shared"
together with article Y's link to it. -/
theorem deleteArticle_orphan_cleanup_witness :
    (∀ st ∈ exStoreXY.stickers, linkedTo exStoreXY 1 st.id = true →
       (otherConnections 1 st.id exStoreXY.links = 0 →
          ∀ st2 ∈ exStoreXY1.stickers, st2.id ≠ st.id) ∧
       (otherConnections 1 st.id exStoreXY.links ≠ 0 → st ∈ exStoreXY1.stickers)) ∧
    (∀ l ∈ exStoreXY.links, l.articleId ≠ 1 → l ∈ exStoreXY1.links) :=
  deleteArticle_orphan_cleanup exStoreXY 1 exStoreXY1 rfl

/-- Claim C7, amended: a successful delete removes every link row of the
article and the article row itself in one transaction, the article's link
rows having been deleted before the orphan counts are computed; fetching
the article afterwards fails with the Unauthorized-class error "Article
with id not found!" that `getArticleById` throws for a missing article
(not with the `NotFoundException` class). -/
theorem deleteArticle_removes_links_and_article (s : Store) (i : Nat)
    (s1 : Store) (h : deleteArticle s i = (.ok (), s1)) :
    (∀ l ∈ s1.links, l.articleId ≠ i) ∧
    (∀ a ∈ s1.articles, a.id ≠ i) ∧
    getArticleById s1 i =
      .error ⟨.unauthorized, "Article with id not found!"⟩ := by
  obtain ⟨s2, hos, rfl⟩ := deleteArticle_ok_shape s i s1 h
  have hframe := orphanSweep_ok_frame _ _ _ _ hos
  have hlinks2 : s2.links = s.links.filter (fun l2 => l2.articleId != i) :=
    hframe.1
  have harts : ∀ a ∈ s2.articles.filter (fun a => a.id != i), a.id ≠ i := by
    intro a ha
    have := List.mem_filter.1 ha
    simpa using this.2
  refine ⟨?_, harts, ?_⟩
  · intro l hl
    have hl0 : l ∈ s2.links := hl
    rw [hlinks2] at hl0
    have := List.mem_filter.1 hl0
    simpa using this.2
  · have hnone : (s2.articles.filter (fun a => a.id != i)).find?
        (fun a => a.id == i) = none := by
      rw [List.find?_eq_none]
      intro x hx
      simpa using harts x hx
    simp only [getArticleById, findArticleById]
    rw [hnone]

/-- Witness for the amended claim C7 at the concrete P4 scenario. -/
theorem deleteArticle_removes_links_and_article_witness :
    (∀ l ∈ exStoreXY1.links, l.articleId ≠ 1) ∧
    (∀ a ∈ exStoreXY1.articles, a.id ≠ 1) ∧
    getArticleById exStoreXY1 1 =
      .error ⟨.unauthorized, "Article with id not found!"⟩ :=
  deleteArticle_removes_links_and_article exStoreXY 1 exStoreXY1 rfl

/-- Claim C10: starting from a store in which every sticker row is
referenced by at least one link row, every successful `createArticle` and
every successful `deleteArticle` leaves a store in which every sticker row
is still referenced by at least one link row. -/
theorem noOrphans_preserved (s : Store) (h : noOrphans s) :
    (∀ req a s1, createArticle s req = (.ok a, s1) → noOrphans s1) ∧
    (∀ i s1, deleteArticle s i = (.ok (), s1) → noOrphans s1) := by
  constructor
  · intro req a s1 hc
    obtain ⟨_, _, hsticks, hlinks⟩ := createArticle_ok_shape s req a s1 hc
    intro st hst
    rw [hsticks] at hst
    rcases resolveStickers_stickers_mem (req.stickers.getD []) s st hst with hold | hnew
    · obtain ⟨l, hl, hls⟩ := h st hold
      refine ⟨l, ?_, hls⟩
      rw [hlinks, (resolveStickers_frame (req.stickers.getD []) s).1]
      exact List.mem_append_left _ hl
    · refine ⟨⟨a.id, st.id⟩, ?_, rfl⟩
      rw [hlinks]
      exact List.mem_append_right _ (List.mem_map.2 ⟨st, hnew, rfl⟩)
  · intro i s1 hd
    obtain ⟨s2, hos, rfl⟩ := deleteArticle_ok_shape s i s1 hd
    have hframe := orphanSweep_ok_frame _ _ _ _ hos
    have hlinks2 : s2.links = s.links.filter (fun l2 => l2.articleId != i) :=
      hframe.1
    intro st hst
    have hst2 : st ∈ s2.stickers := hst
    have hmem : st ∈ s.stickers := orphanSweep_ok_stickers_sub _ _ _ _ hos st hst2
    obtain ⟨l, hl, hls⟩ := h st hmem
    by_cases hcase : l.articleId = i
    · have hlinked : linkedTo s i st.id = true := by
        unfold linkedTo
        exact List.any_eq_true.2 ⟨l, hl, by simp [hcase, hls]⟩
      have hoc : otherConnections i st.id s.links ≠ 0 := by
        intro h0
        have hrem := orphanSweep_remove _ _ _ _ st.id hos
          (linkedTo_mem_stickerIds s i st.id hlinked)
          (by show otherConnections i st.id
                (s.links.filter (fun l2 => l2.articleId != i)) = 0
              rw [otherConnections_filter]
              exact h0)
        exact hrem st hst2 rfl
      have hnil : s.links.filter
          (fun l2 => l2.stickerId == st.id && l2.articleId != i) ≠ [] := by
        intro hn
        exact hoc (by unfold otherConnections; rw [hn]; rfl)
      obtain ⟨l2, hl2⟩ := List.exists_mem_of_ne_nil _ hnil
      have hm := List.mem_filter.1 hl2
      have hmp : l2.stickerId = st.id ∧ l2.articleId ≠ i := by
        have := hm.2
        simp at this
        exact this
      refine ⟨l2, ?_, hmp.1⟩
      show l2 ∈ s2.links
      rw [hlinks2]
      exact List.mem_filter.2 ⟨hm.1, by simpa using hmp.2⟩
    · refine ⟨l, ?_, hls⟩
      show l ∈ s2.links
      rw [hlinks2]
      exact List.mem_filter.2 ⟨hl, by simpa using hcase⟩

/-- Witness for claim C10: the no-orphan invariant holds in the concrete
P4 store and still holds after deleting article X from it. -/
theorem noOrphans_preserved_witness :
    noOrphans exStoreXY1 :=
  (noOrphans_preserved exStoreXY (by unfold noOrphans; decide)).2 1 exStoreXY1 rfl

end Distcomp
